import Mathlib

/-!
Verification of the load-profile desktop application
(`src/app-cplusplus-rev01/process_load.cpp`).

The program is a single Qt window with one button.  Clicking the button
opens a file dialog; on cancellation (empty result) a warning dialog is
shown, otherwise the selected path is logged and passed to `process_csv`,
a stub that prints one diagnostic line inside a catch-all handler.

We embed the observable behaviour as pure functions from the dialog's
returned string to a trace of events (console output, debug log lines,
warning dialogs, invocations of `process_csv`).
-/

/-- Observable events emitted by the program. -/
inductive Event where
  /-- A line written to `std::cout`. -/
  | consoleOut (line : String)
  /-- A line written to `std::cerr`. -/
  | consoleErr (line : String)
  /-- A `qDebug()` line; the operands are kept as separate parts
      (Qt joins them with spaces when rendering). -/
  | debugLog (parts : List String)
  /-- A blocking `QMessageBox::warning` with a title and a message. -/
  | warnDialog (title : String) (msg : String)
  /-- An invocation of `process_csv` with the given path argument. -/
  | processCsvCall (path : String)
deriving DecidableEq, Repr

/-- The `try` body of `process_csv`:
`std::cout << "Processing file: " << input_file << std::endl;` followed by
a comment placeholder.  It emits one console line and cannot throw, so it
always returns `Except.ok`; a thrown `std::exception` would be modelled as
`Except.error` carrying the `what()` message. -/
def process_csv_body (input_file : String) : Except String (List Event) :=
  Except.ok [Event.consoleOut ("Processing file: " ++ input_file)]

/-- The `catch (const std::exception& e)` handler wrapping the body of
`process_csv`: a normal result passes through unchanged; a thrown
exception is swallowed and `"Error: " ++ e.what()` is written to
`std::cerr`.  In both cases the function returns normally. -/
def catchHandler (body : Except String (List Event)) : List Event :=
  match body with
  | Except.ok evs => evs
  | Except.error msg => [Event.consoleErr ("Error: " ++ msg)]

/-- `void process_csv(const std::string& input_file)`: runs the body under
the catch-all handler and returns no value; its observable behaviour is
the emitted event trace. -/
def process_csv (input_file : String) : List Event :=
  catchHandler (process_csv_body input_file)

/-- `MainWindow::onSelectFile`, as a function of the string returned by
`QFileDialog::getOpenFileName` (the empty string models cancellation,
matching `QString::isEmpty`).  On an empty result it shows the warning
dialog; otherwise it logs the selection with `qDebug`, then calls
`process_csv` with exactly the returned path. -/
def onSelectFile (fileName : String) : List Event :=
  if fileName = "" then
    [Event.warnDialog "No File Selected" "Please select a valid CSV file."]
  else
    Event.debugLog ["Selected file:", fileName] ::
    Event.processCsvCall fileName ::
    process_csv fileName

/-- A button as configured in the `MainWindow` constructor. -/
structure Button where
  label : String
  x : Nat
  y : Nat
  w : Nat
  h : Nat
deriving DecidableEq, Repr

/-- The window state produced by the `MainWindow` constructor. -/
structure WindowState where
  width : Nat
  height : Nat
  buttons : List Button
deriving DecidableEq, Repr

/-- The `MainWindow` constructor: `resize(300, 100)` and one
`QPushButton("Select CSV File", this)` with geometry `(50, 20, 200, 50)`,
whose click signal is connected to `onSelectFile`.  Nothing else is added
to the window. -/
def MainWindow_init : WindowState :=
  { width := 300
    height := 100
    buttons := [{ label := "Select CSV File", x := 50, y := 20, w := 200, h := 50 }] }

/-- Is this event a warning dialog? -/
def Event.isWarn : Event → Bool
  | Event.warnDialog _ _ => true
  | _ => false

/-- Is this event an invocation of `process_csv`? -/
def Event.isCall : Event → Bool
  | Event.processCsvCall _ => true
  | _ => false

/-- Is this event a `std::cout` line? -/
def Event.isConsoleOut : Event → Bool
  | Event.consoleOut _ => true
  | _ => false

/-- Is this event a `std::cerr` line? -/
def Event.isConsoleErr : Event → Bool
  | Event.consoleErr _ => true
  | _ => false

/-- Is this event a diagnostic log line (debug log or console output)? -/
def Event.isDiag : Event → Bool
  | Event.debugLog _ => true
  | Event.consoleOut _ => true
  | _ => false

/-- Number of warning dialogs in a trace. -/
def countWarn (t : List Event) : Nat := t.countP Event.isWarn

/-- Number of `process_csv` invocations in a trace. -/
def countCall (t : List Event) : Nat := t.countP Event.isCall

/-- Number of `std::cerr` lines in a trace. -/
def countErr (t : List Event) : Nat := t.countP Event.isConsoleErr

/-- The arguments of the `process_csv` invocations in a trace, in order. -/
def callsOf (t : List Event) : List String :=
  t.filterMap fun e =>
    match e with
    | Event.processCsvCall p => some p
    | _ => none

/-- The diagnostic log lines of a trace, in order. -/
def diagLines (t : List Event) : List Event := t.filter Event.isDiag

/-- C1: when the dialog returns an empty result (cancellation), the flow
shows exactly one blocking warning dialog with the fixed message
"Please select a valid CSV file." and `process_csv` is not called. -/
theorem c1_cancel_shows_one_warning :
    onSelectFile "" =
      [Event.warnDialog "No File Selected" "Please select a valid CSV file."] ∧
    countWarn (onSelectFile "") = 1 ∧
    countCall (onSelectFile "") = 0 := by
  refine ⟨rfl, ?_, ?_⟩ <;> decide

/-- C2: when the dialog returns a non-empty path, `process_csv` is invoked
exactly once with exactly that path, and no warning dialog or error output
is produced; the trace depends on nothing but the returned string (no file
existence or content check occurs). -/
theorem c2_nonempty_calls_once (fileName : String) (h : fileName ≠ "") :
    callsOf (onSelectFile fileName) = [fileName] ∧
    countCall (onSelectFile fileName) = 1 ∧
    countWarn (onSelectFile fileName) = 0 ∧
    countErr (onSelectFile fileName) = 0 := by
  simp [onSelectFile, h, callsOf, countCall, countWarn, countErr,
    process_csv, process_csv_body, catchHandler, List.countP_cons,
    Event.isCall, Event.isWarn, Event.isConsoleErr]

/-- Witness for C2 at the concrete path "data.csv". -/
theorem c2_nonempty_calls_once_witness :
    callsOf (onSelectFile "data.csv") = ["data.csv"] ∧
    countCall (onSelectFile "data.csv") = 1 ∧
    countWarn (onSelectFile "data.csv") = 0 ∧
    countErr (onSelectFile "data.csv") = 0 :=
  c2_nonempty_calls_once "data.csv" (by decide)

/-- C3: `process_csv` emits exactly one console line,
"Processing file: " followed by its input, and nothing else; it performs
no computation on the input and returns no value. -/
theorem c3_process_csv_single_line (input_file : String) :
    process_csv input_file =
      [Event.consoleOut ("Processing file: " ++ input_file)] := by
  rfl

/-- C4: an exception raised inside the body of `process_csv` is caught by
the wrapping handler, its message is logged to `std::cerr` as
"Error: " followed by the message, and the function returns normally with
no event other than that log line — nothing propagates to the caller and
no UI dialog is shown. -/
theorem c4_handler_catches_and_logs (msg : String) :
    catchHandler (Except.error msg) = [Event.consoleErr ("Error: " ++ msg)] ∧
    countWarn (catchHandler (Except.error msg)) = 0 ∧
    countCall (catchHandler (Except.error msg)) = 0 := by
  refine ⟨rfl, ?_, ?_⟩ <;>
    simp [catchHandler, countWarn, countCall, Event.isWarn, Event.isCall]

/-- C5: for every input string, `process_csv` raises no visible error and
produces no effect beyond its console output: every event in its trace is
a `std::cout` line, and there are no warning dialogs or error lines. -/
theorem c5_no_visible_error (input_file : String) :
    (process_csv input_file).all Event.isConsoleOut = true ∧
    countWarn (process_csv input_file) = 0 ∧
    countErr (process_csv input_file) = 0 := by
  refine ⟨rfl, ?_, ?_⟩ <;>
    simp [process_csv, process_csv_body, catchHandler, countWarn, countErr,
      Event.isWarn, Event.isConsoleErr]

/-- C6: the catch branch of `process_csv` is unreachable: for every input
the try body returns normally (`Except.ok`), so the error-logging branch
never executes. -/
theorem c6_catch_unreachable (input_file : String) :
    process_csv_body input_file =
      Except.ok [Event.consoleOut ("Processing file: " ++ input_file)] := by
  rfl

/-- C7: for every non-empty selected path, the diagnostic log output of
the flow is exactly two lines in order: the `qDebug` line
"Selected file:" with the path, then the console line
"Processing file: " with the path. -/
theorem c7_two_diag_lines (fileName : String) (h : fileName ≠ "") :
    diagLines (onSelectFile fileName) =
      [Event.debugLog ["Selected file:", fileName],
       Event.consoleOut ("Processing file: " ++ fileName)] := by
  simp [onSelectFile, h, diagLines, process_csv, process_csv_body,
    catchHandler, Event.isDiag]

/-- Witness for C7 at the concrete path "a.csv". -/
theorem c7_two_diag_lines_witness :
    diagLines (onSelectFile "a.csv") =
      [Event.debugLog ["Selected file:", "a.csv"],
       Event.consoleOut ("Processing file: " ++ "a.csv")] :=
  c7_two_diag_lines "a.csv" (by decide)

/-- C8: the `MainWindow` constructor produces a 300-by-100 window whose
only control is one button labeled "Select CSV File". -/
theorem c8_window_one_button :
    MainWindow_init.width = 300 ∧
    MainWindow_init.height = 100 ∧
    MainWindow_init.buttons.map Button.label = ["Select CSV File"] ∧
    MainWindow_init.buttons.length = 1 := by
  refine ⟨rfl, rfl, rfl, rfl⟩

/-- C9: the flow is a deterministic function of the dialog's returned
string, and for every returned string exactly one of the two branches
runs: either exactly one warning dialog and no `process_csv` call, or no
warning dialog and exactly one `process_csv` call — never both, never
neither. -/
theorem c9_exactly_one_branch (fileName : String) :
    (countWarn (onSelectFile fileName) = 1 ∧
     countCall (onSelectFile fileName) = 0) ∨
    (countWarn (onSelectFile fileName) = 0 ∧
     countCall (onSelectFile fileName) = 1) := by
  by_cases h : fileName = "" <;>
    simp [onSelectFile, h, countWarn, countCall, process_csv,
      process_csv_body, catchHandler, Event.isWarn, Event.isCall]

/-- C10: an empty dialog result is handled as cancellation: the empty-path
run shows the warning and never reaches `process_csv`, and any
`process_csv` invocation produced by the flow carries the (non-empty)
dialog string itself, so `process_csv` is never reached with an empty path
through the UI flow. -/
theorem c10_no_empty_path_call (fileName p : String)
    (h : Event.processCsvCall p ∈ onSelectFile fileName) :
    p = fileName ∧ p ≠ "" ∧ countWarn (onSelectFile "") = 1 := by
  by_cases hf : fileName = ""
  · simp [onSelectFile, hf] at h
  · simp [onSelectFile, hf, process_csv, process_csv_body, catchHandler] at h
    refine ⟨h, ?_, by decide⟩
    rw [h]
    exact hf

/-- Witness for C10: the concrete run on "x.csv" contains the invocation
event. -/
theorem c10_no_empty_path_call_witness :
    "x.csv" = "x.csv" ∧ "x.csv" ≠ "" ∧ countWarn (onSelectFile "") = 1 :=
  c10_no_empty_path_call "x.csv" "x.csv" (by decide)
